import Mathlib

/-!
# Verification of the mio readiness-notification library (selected claims)

A shallow embedding of the parts of the repository the claims talk about:

* `src/mio/src/sys/windows/tcp.rs` — the Windows `TcpStream` / `TcpListener`
  sources with their `InternalState` slot, the `SocketState` capability
  (`get_sock_state` / `set_sock_state`), the `event::Source` implementation
  (`register` / `reregister` / `deregister`), `io_blocked_reregister`,
  `try_clone` and `accept`;
* `src/src/event/event.rs` — the public `Event` wrapper over the platform
  `sys::Event`;
* `src/src/sys/unix/mod.rs` and `src/src/io_source.rs` — the Unix
  `IoSourceState` and the generic `IoSource::do_io`;
* `src/src/sys/unix/tcp/listener.rs` — the Unix sys-level
  `TcpListener::accept`.

Rust `io::Result` is embedded as `Except IoError`; the shared heap of
`Arc<Mutex<SockState>>` cells is embedded as a function from pointers
(naturals) to `SockState` values, threaded explicitly; `&mut self` methods
become state-passing functions.  Calls into the Windows `Selector` (whose
implementation file is not part of the provided sources) are abstracted as
explicit function parameters; where a claim depends on the selector's own
behaviour, that behaviour is modelled from the specification and marked so.
-/

namespace Mio

/-- `Token(usize)` from the public API: a wrapper around a machine word with
equality only. -/
structure Token where
  val : Nat
deriving DecidableEq, Repr

/-- `Interest`: a nonzero readiness bitmask.  The claims treated here never
inspect individual bits, so the bit pattern is carried opaquely. -/
structure Interest where
  bits : Nat
deriving DecidableEq, Repr

/-- Kinds of `std::io::Error` distinguished by the error table of the spec. -/
inductive ErrorKind where
  | wouldBlock
  | invalidInput
  | notFound
  | other
deriving DecidableEq, Repr

/-- An embedded `std::io::Error`: only its kind is observable here. -/
structure IoError where
  kind : ErrorKind
deriving DecidableEq, Repr

/-- `std::io::Result α`. -/
abbrev IoResult (α : Type) := Except IoError α

/-- `io::Result<()>`, the outcome of a selector call. -/
abbrev IoUnit := IoResult Unit

/-- Modelled from the spec: the Windows per-socket `SockState` cell lives in
`src/mio/src/sys/windows/selector.rs`, which is not among the provided
sources.  Only the piece the provided source touches is modelled: the
soft-delete tombstone that `mark_delete()` installs and that "the next
selector drain observes" (spec §4.3). -/
structure SockState where
  delete_pending : Bool
deriving DecidableEq, Repr

/-- Modelled from the spec: `mark_delete()` marks the cell for deletion — a
soft delete; the next drain of the update queue observes the tombstone and
removes the cell. -/
def SockState.mark_delete (s : SockState) : SockState :=
  { s with delete_pending := true }

/-- The shared store of `Arc<Mutex<SockState>>` cells, addressed by abstract
pointers. -/
def Heap := Nat → SockState

/-- Write one cell of the store. -/
def Heap.update (h : Heap) (p : Nat) (s : SockState) : Heap :=
  fun q => if q = p then s else h q

/-- Modelled from the spec: the Windows-only per-source `InternalState`
(defined in `src/mio/src/sys/windows/mod.rs`, not among the provided
sources).  Spec §3: a slot containing a shared handle to the Selector the
source was registered with (embedded as an abstract selector identity), the
token and interests last associated with it, and an optional pointer to a
`SockState` cell. -/
structure InternalState where
  selector : Nat
  token : Token
  interests : Interest
  sock_state : Option Nat
deriving DecidableEq, Repr

/-- Modelled from the spec: `InternalState::new(selector, token, interests)`
starts with no `SockState` pointer — the registration protocol (spec §4.3)
publishes the pointer into the slot only afterwards. -/
def InternalState.new (selector : Nat) (token : Token) (interests : Interest) :
    InternalState :=
  { selector := selector, token := token, interests := interests,
    sock_state := none }

/-- The inner `std::net::TcpStream`.  Only its OS handle and its non-blocking
mode are observable in the claims treated here. -/
structure NetTcpStream where
  handle : Nat
  nonblocking : Bool
deriving DecidableEq, Repr

/-- The inner `std::net::TcpListener`. -/
structure NetTcpListener where
  handle : Nat
deriving DecidableEq, Repr

/-- A socket address; its structure is irrelevant to the claims, so it is an
abstract value. -/
abbrev SockAddr := Nat

/-- Windows `TcpStream` (src/mio/src/sys/windows/tcp.rs):
`internal: Box<Mutex<Option<InternalState>>>` and the inner std stream. -/
structure TcpStream where
  internal : Option InternalState
  inner : NetTcpStream
deriving DecidableEq, Repr

/-- Windows `TcpListener` (src/mio/src/sys/windows/tcp.rs). -/
structure TcpListener where
  internal : Option InternalState
  inner : NetTcpListener
deriving DecidableEq, Repr

/-! ## The `SocketState` capability (get_sock_state / set_sock_state) -/

/-- `TcpStream::get_sock_state` (tcp.rs lines 131–140): read the optional
`SockState` pointer through the `internal` slot; `None` when the slot is
empty or holds no pointer. -/
def TcpStream.get_sock_state (s : TcpStream) : Option Nat :=
  match s.internal with
  | some internal =>
    match internal.sock_state with
    | some arc => some arc
    | none => none
  | none => none

/-- `TcpStream::set_sock_state` (tcp.rs lines 141–160).  When the slot holds
an `InternalState`: if the new pointer is `None` and a cell is currently
installed, that cell is first marked for deletion (`mark_delete`), then the
pointer field is overwritten.  When the slot is empty the call does
nothing. -/
def TcpStream.set_sock_state (s : TcpStream) (h : Heap) (sock_state : Option Nat) :
    TcpStream × Heap :=
  match s.internal with
  | some internal =>
    let h :=
      if sock_state.isNone then
        match internal.sock_state with
        | some p => h.update p ((h p).mark_delete)
        | none => h
      else h
    ({ s with internal := some { internal with sock_state := sock_state } }, h)
  | none => (s, h)

/-- `TcpListener::get_sock_state` (tcp.rs lines 390–399): identical to the
stream version. -/
def TcpListener.get_sock_state (l : TcpListener) : Option Nat :=
  match l.internal with
  | some internal =>
    match internal.sock_state with
    | some arc => some arc
    | none => none
  | none => none

/-- `TcpListener::set_sock_state` (tcp.rs lines 400–419): identical to the
stream version. -/
def TcpListener.set_sock_state (l : TcpListener) (h : Heap) (sock_state : Option Nat) :
    TcpListener × Heap :=
  match l.internal with
  | some internal =>
    let h :=
      if sock_state.isNone then
        match internal.sock_state with
        | some p => h.update p ((h p).mark_delete)
        | none => h
      else h
    ({ l with internal := some { internal with sock_state := sock_state } }, h)
  | none => (l, h)

/-! ## Abstract selector calls

The Windows `Selector` implementation is not among the provided sources, so
a call into it is a parameter: it receives the token and interests passed by
the source, the source itself and the heap, and yields an `io::Result<()>`
together with the updated source and heap.  The selector reaches the source
only through the `SocketState` capability above; `slotView`, the part of the
source a selector call can never change, makes that restriction a stated
hypothesis where a claim needs it. -/

/-- A `Selector::register`/`reregister` call on a stream source. -/
abbrev StreamSelCall := Token → Interest → TcpStream → Heap → IoUnit × TcpStream × Heap

/-- A `Selector::deregister` call on a stream source. -/
abbrev StreamSelDereg := TcpStream → Heap → IoUnit × TcpStream × Heap

/-- A `Selector::register`/`reregister` call on a listener source. -/
abbrev ListenerSelCall := Token → Interest → TcpListener → Heap → IoUnit × TcpListener × Heap

/-- A `Selector::deregister` call on a listener source. -/
abbrev ListenerSelDereg := TcpListener → Heap → IoUnit × TcpListener × Heap

/-- The part of a stream the selector cannot reach through
`get_sock_state`/`set_sock_state`: whether the `internal` slot is occupied,
and its selector handle, token and interests. -/
def TcpStream.slotView (s : TcpStream) : Option (Nat × Token × Interest) :=
  s.internal.map fun st => (st.selector, st.token, st.interests)

/-- Listener version of `TcpStream.slotView`. -/
def TcpListener.slotView (l : TcpListener) : Option (Nat × Token × Interest) :=
  l.internal.map fun st => (st.selector, st.token, st.interests)

/-- A selector call that touches the source only through the `SocketState`
capability preserves `slotView`. -/
def StreamSelFrame (f : StreamSelCall) : Prop :=
  ∀ t i s h, ((f t i s h).2.1).slotView = s.slotView

/-- Listener version of `StreamSelFrame`. -/
def ListenerSelFrame (f : ListenerSelCall) : Prop :=
  ∀ t i l h, ((f t i l h).2.1).slotView = l.slotView

/-! ## event::Source for TcpStream (tcp.rs lines 220–277) -/

/-- `TcpStream::register` (tcp.rs lines 221–246): install an `InternalState`
if the slot is empty, call the selector, and on failure clear the slot. -/
def TcpStream.register (selRegister : StreamSelCall) (registrySel : Nat)
    (s : TcpStream) (h : Heap) (token : Token) (interests : Interest) :
    IoUnit × TcpStream × Heap :=
  let s :=
    match s.internal with
    | none => { s with internal := some (InternalState.new registrySel token interests) }
    | some _ => s
  match selRegister token interests s h with
  | (Except.ok u, s, h) => (Except.ok u, s, h)
  | (Except.error e, s, h) => (Except.error e, { s with internal := none }, h)

/-- `TcpStream::reregister` (tcp.rs lines 248–264): call the selector; on
success overwrite the stored token and interests (`internal.as_mut().unwrap()`
— `none` here embeds the panic of unwrapping an empty slot); on failure do
nothing. -/
def TcpStream.reregister (selReregister : StreamSelCall)
    (s : TcpStream) (h : Heap) (token : Token) (interests : Interest) :
    Option (IoUnit × TcpStream × Heap) :=
  match selReregister token interests s h with
  | (Except.ok u, s, h) =>
    match s.internal with
    | some st =>
      some (Except.ok u,
        { s with internal := some { st with token := token, interests := interests } }, h)
    | none => none
  | (Except.error e, s, h) => some (Except.error e, s, h)

/-- `TcpStream::deregister` (tcp.rs lines 266–276): call the selector; on
success clear the slot; on failure do nothing. -/
def TcpStream.deregister (selDeregister : StreamSelDereg)
    (s : TcpStream) (h : Heap) : IoUnit × TcpStream × Heap :=
  match selDeregister s h with
  | (Except.ok u, s, h) => (Except.ok u, { s with internal := none }, h)
  | (Except.error e, s, h) => (Except.error e, s, h)

/-- `TcpStream::io_blocked_reregister` (tcp.rs lines 116–127): when the slot
is occupied, call the stored selector's `reregister` with the stored token
and interests and return its result; when empty, return `Ok(())`.
`selRereg`'s first argument is the selector handle taken from the slot. -/
def TcpStream.io_blocked_reregister
    (selRereg : Nat → Token → Interest → TcpStream → Heap → IoUnit × TcpStream × Heap)
    (s : TcpStream) (h : Heap) : IoUnit × TcpStream × Heap :=
  match s.internal with
  | some st => selRereg st.selector st.token st.interests s h
  | none => (Except.ok (), s, h)

/-- `TcpStream::try_clone` (tcp.rs lines 80–85): clone the inner std stream
(an OS call, abstracted as `osClone`); on success wrap it with a fresh
`internal` slot containing `None`. -/
def TcpStream.try_clone (osClone : NetTcpStream → IoResult NetTcpStream)
    (s : TcpStream) : IoResult TcpStream :=
  (osClone s.inner).map fun c => { internal := none, inner := c }

/-! ## event::Source for TcpListener (tcp.rs lines 422–479) -/

/-- `TcpListener::register` (tcp.rs lines 423–448): identical in shape to the
stream version. -/
def TcpListener.register (selRegister : ListenerSelCall) (registrySel : Nat)
    (l : TcpListener) (h : Heap) (token : Token) (interests : Interest) :
    IoUnit × TcpListener × Heap :=
  let l :=
    match l.internal with
    | none => { l with internal := some (InternalState.new registrySel token interests) }
    | some _ => l
  match selRegister token interests l h with
  | (Except.ok u, l, h) => (Except.ok u, l, h)
  | (Except.error e, l, h) => (Except.error e, { l with internal := none }, h)

/-- `TcpListener::reregister` (tcp.rs lines 450–466): identical in shape to
the stream version. -/
def TcpListener.reregister (selReregister : ListenerSelCall)
    (l : TcpListener) (h : Heap) (token : Token) (interests : Interest) :
    Option (IoUnit × TcpListener × Heap) :=
  match selReregister token interests l h with
  | (Except.ok u, l, h) =>
    match l.internal with
    | some st =>
      some (Except.ok u,
        { l with internal := some { st with token := token, interests := interests } }, h)
    | none => none
  | (Except.error e, l, h) => some (Except.error e, l, h)

/-- `TcpListener::deregister` (tcp.rs lines 468–478): identical in shape to
the stream version. -/
def TcpListener.deregister (selDeregister : ListenerSelDereg)
    (l : TcpListener) (h : Heap) : IoUnit × TcpListener × Heap :=
  match selDeregister l h with
  | (Except.ok u, l, h) => (Except.ok u, { l with internal := none }, h)
  | (Except.error e, l, h) => (Except.error e, l, h)

/-- `TcpListener::io_blocked_reregister` (tcp.rs lines 375–386): identical in
shape to the stream version. -/
def TcpListener.io_blocked_reregister
    (selRereg : Nat → Token → Interest → TcpListener → Heap → IoUnit × TcpListener × Heap)
    (l : TcpListener) (h : Heap) : IoUnit × TcpListener × Heap :=
  match l.internal with
  | some st => selRereg st.selector st.token st.interests l h
  | none => (Except.ok (), l, h)

/-- `TcpListener::try_clone` (tcp.rs lines 341–346): identical in shape to
the stream version. -/
def TcpListener.try_clone (osClone : NetTcpListener → IoResult NetTcpListener)
    (l : TcpListener) : IoResult TcpListener :=
  (osClone l.inner).map fun c => { internal := none, inner := c }

/-! ## accept -/

/-- `std::net::TcpStream::set_nonblocking(v)`: the underlying `ioctl` may
fail (`osOk = false`), leaving the mode unchanged; on success the stream's
non-blocking mode becomes `v`. -/
def NetTcpStream.set_nonblocking (osOk : Bool) (s : NetTcpStream) (v : Bool) :
    IoResult NetTcpStream :=
  if osOk then Except.ok { s with nonblocking := v }
  else Except.error { kind := ErrorKind.other }

/-- Modelled from the spec: the `try_io!` macro (defined in
`src/mio/src/sys/windows/mod.rs`, not among the provided sources) around the
listener's inner `accept`.  Spec §4.3: "After any socket I/O operation that
returned would-block, the caller re-invokes the registration path" — the
inner operation runs first; when it fails with would-block the listener's
`io_blocked_reregister` runs, a failure of which replaces the result;
otherwise the inner operation's result is returned unchanged. -/
def TcpListener.try_io_accept
    (selRereg : Nat → Token → Interest → TcpListener → Heap → IoUnit × TcpListener × Heap)
    (osAccept : NetTcpListener → IoResult (NetTcpStream × SockAddr))
    (l : TcpListener) (h : Heap) :
    IoResult (NetTcpStream × SockAddr) × TcpListener × Heap :=
  match osAccept l.inner with
  | Except.ok v => (Except.ok v, l, h)
  | Except.error e =>
    if e.kind = ErrorKind.wouldBlock then
      match TcpListener.io_blocked_reregister selRereg l h with
      | (Except.ok _, l, h) => (Except.error e, l, h)
      | (Except.error e2, l, h) => (Except.error e2, l, h)
    else (Except.error e, l, h)

/-- Windows `TcpListener::accept` (tcp.rs lines 348–360): run the inner
accept through `try_io!`, then set the accepted stream to non-blocking and
wrap it in a `TcpStream` with an empty `internal` slot. -/
def TcpListener.accept
    (selRereg : Nat → Token → Interest → TcpListener → Heap → IoUnit × TcpListener × Heap)
    (osAccept : NetTcpListener → IoResult (NetTcpStream × SockAddr))
    (nbOsOk : Bool) (l : TcpListener) (h : Heap) :
    IoResult (TcpStream × SockAddr) × TcpListener × Heap :=
  match l.try_io_accept selRereg osAccept h with
  | (Except.ok (inner, addr), l, h) =>
    match inner.set_nonblocking nbOsOk true with
    | Except.ok inner => (Except.ok ({ internal := none, inner := inner }, addr), l, h)
    | Except.error e => (Except.error e, l, h)
  | (Except.error e, l, h) => (Except.error e, l, h)

/-- Unix sys-level `TcpListener` (src/src/sys/unix/tcp/listener.rs): just the
inner std listener. -/
structure UnixTcpListener where
  inner : NetTcpListener
deriving DecidableEq, Repr

/-- Unix `TcpListener::accept` (listener.rs lines 51–55): exactly
`self.inner.accept()` — the commented-out `set_nonblocking` call is dead, so
the accepted stream is returned as the OS produced it. -/
def UnixTcpListener.accept (osAccept : NetTcpListener → IoResult (NetTcpStream × SockAddr))
    (l : UnixTcpListener) : IoResult (NetTcpStream × SockAddr) :=
  osAccept l.inner

/-! ## The public Event wrapper (src/src/event/event.rs) -/

/-- Modelled from the spec: the platform `sys::Event` record (the platform
selector files are not among the provided sources; the shell backend's
accessors are unimplemented stubs).  Spec §3: an event carries a token and
readiness predicates readable, writable, error, read-closed, write-closed,
priority, aio, lio, each derivable from the kernel record. -/
structure SysEvent where
  tokenVal : Token
  readable : Bool
  writable : Bool
  hasError : Bool
  readClosed : Bool
  writeClosed : Bool
  priorityBit : Bool
  aio : Bool
  lio : Bool
deriving DecidableEq, Repr

namespace sysEvent

/-- Platform accessor `sys::event::token`. -/
def token (e : SysEvent) : Token := e.tokenVal

/-- Platform accessor `sys::event::is_readable`. -/
def is_readable (e : SysEvent) : Bool := e.readable

/-- Platform accessor `sys::event::is_writable`. -/
def is_writable (e : SysEvent) : Bool := e.writable

/-- Platform accessor `sys::event::is_error`. -/
def is_error (e : SysEvent) : Bool := e.hasError

/-- Platform accessor `sys::event::is_read_closed`. -/
def is_read_closed (e : SysEvent) : Bool := e.readClosed

/-- Platform accessor `sys::event::is_write_closed`. -/
def is_write_closed (e : SysEvent) : Bool := e.writeClosed

/-- Platform accessor `sys::event::is_priority`. -/
def is_priority (e : SysEvent) : Bool := e.priorityBit

/-- Platform accessor `sys::event::is_aio`. -/
def is_aio (e : SysEvent) : Bool := e.aio

/-- Platform accessor `sys::event::is_lio`. -/
def is_lio (e : SysEvent) : Bool := e.lio

end sysEvent

/-- The public `Event` (event.rs lines 15–18): `repr(transparent)` over the
platform `sys::Event`. -/
structure Event where
  inner : SysEvent
deriving DecidableEq, Repr

namespace Event

/-- `Event::token` (event.rs line 23). -/
def token (e : Event) : Token := sysEvent.token e.inner

/-- `Event::is_readable` (event.rs line 29). -/
def is_readable (e : Event) : Bool := sysEvent.is_readable e.inner

/-- `Event::is_writable` (event.rs line 35). -/
def is_writable (e : Event) : Bool := sysEvent.is_writable e.inner

/-- `Event::is_error` (event.rs line 61). -/
def is_error (e : Event) : Bool := sysEvent.is_error e.inner

/-- `Event::is_read_closed` (event.rs line 85). -/
def is_read_closed (e : Event) : Bool := sysEvent.is_read_closed e.inner

/-- `Event::is_write_closed` (event.rs line 108). -/
def is_write_closed (e : Event) : Bool := sysEvent.is_write_closed e.inner

/-- `Event::is_priority` (event.rs line 130). -/
def is_priority (e : Event) : Bool := sysEvent.is_priority e.inner

/-- `Event::is_aio` (event.rs line 153). -/
def is_aio (e : Event) : Bool := sysEvent.is_aio e.inner

/-- `Event::is_lio` (event.rs line 164). -/
def is_lio (e : Event) : Bool := sysEvent.is_lio e.inner

/-- `Event::from_sys_event_ref` (event.rs lines 169–175): the same record
viewed as an `Event` — `repr(transparent)` makes the cast copy-free, which
the embedding renders as the wrapped record being the very argument. -/
def from_sys_event_ref (sys_event : SysEvent) : Event :=
  { inner := sys_event }

end Event

/-! ## Unix IoSourceState and IoSource::do_io -/

/-- Unix `IoSourceState` (src/src/sys/unix/mod.rs line 38): a field-less unit
struct — "Both kqueue and epoll don't need to hold any user space state." -/
structure IoSourceState where
deriving DecidableEq, Repr

/-- `IoSourceState::new` (mod.rs lines 41–43). -/
def IoSourceState.new : IoSourceState := {}

/-- Unix `IoSourceState::do_io` (mod.rs lines 45–51): just `f(io)`.  The
operation `f` receives `&mut T`, so it is embedded state-passing: it returns
its `io::Result` together with the possibly-mutated `io`. -/
def IoSourceState.do_io {T R : Type} (_state : IoSourceState)
    (f : T → IoResult R × T) (io : T) : IoResult R × T :=
  f io

/-- `IoSource<T>` (src/src/io_source.rs lines 57–60). -/
structure IoSource (T : Type) where
  state : IoSourceState
  inner : T

/-- `IoSource::new` (io_source.rs lines 64–69). -/
def IoSource.new {T : Type} (io : T) : IoSource T :=
  { state := IoSourceState.new, inner := io }

/-- `IoSource::do_io` (io_source.rs lines 81–87):
`self.state.do_io(f, &mut self.inner)`, with the mutation of `self.inner`
threaded explicitly. -/
def IoSource.do_io {T R : Type} (s : IoSource T) (f : T → IoResult R × T) :
    IoResult R × IoSource T :=
  let fr := s.state.do_io f s.inner
  (fr.1, { s with inner := fr.2 })

/-! ## Sample values (used by the witness theorems) -/

/-- A sample inner std stream. -/
def sampleNet : NetTcpStream := { handle := 7, nonblocking := false }

/-- A sample inner std listener. -/
def sampleNetL : NetTcpListener := { handle := 9 }

/-- A heap whose every cell is live (not marked for deletion). -/
def sampleHeap : Heap := fun _ => { delete_pending := false }

/-- A sample occupied `InternalState` pointing at cell 0. -/
def sampleInternal : InternalState :=
  { selector := 3, token := { val := 1 }, interests := { bits := 1 },
    sock_state := some 0 }

/-- A stream currently registered (slot occupied). -/
def sampleStreamReg : TcpStream := { internal := some sampleInternal, inner := sampleNet }

/-- A stream never registered (slot empty). -/
def sampleStreamNew : TcpStream := { internal := none, inner := sampleNet }

/-- A listener currently registered (slot occupied). -/
def sampleListenerReg : TcpListener := { internal := some sampleInternal, inner := sampleNetL }

/-- A listener never registered (slot empty). -/
def sampleListenerNew : TcpListener := { internal := none, inner := sampleNetL }

/-- A selector call on a stream that accepts and leaves source and heap
untouched. -/
def selOkStream : StreamSelCall := fun _ _ s h => (Except.ok (), s, h)

/-- A selector call on a stream that fails and leaves source and heap
untouched. -/
def selErrStream : StreamSelCall := fun _ _ s h =>
  (Except.error { kind := ErrorKind.other }, s, h)

/-- A stream deregister call that succeeds after clearing the source's
pointer through `set_sock_state` (the spec's deregister protocol). -/
def selDeregOkStream : StreamSelDereg := fun s h =>
  let sh := s.set_sock_state h none
  (Except.ok (), sh.1, sh.2)

/-- A selector call on a listener that accepts and leaves source and heap
untouched. -/
def selOkListener : ListenerSelCall := fun _ _ l h => (Except.ok (), l, h)

/-- A selector call on a listener that fails and leaves source and heap
untouched. -/
def selErrListener : ListenerSelCall := fun _ _ l h =>
  (Except.error { kind := ErrorKind.other }, l, h)

/-- A listener deregister call that succeeds after clearing the source's
pointer through `set_sock_state`. -/
def selDeregOkListener : ListenerSelDereg := fun l h =>
  let lh := l.set_sock_state h none
  (Except.ok (), lh.1, lh.2)

/-- A stream selector call that follows the spec's error table: it rejects a
source whose `get_sock_state` is `None` with `InvalidInput` and accepts
otherwise, touching nothing. -/
def selStrictStream : StreamSelCall := fun _ _ s h =>
  match s.get_sock_state with
  | none => (Except.error { kind := ErrorKind.invalidInput }, s, h)
  | some _ => (Except.ok (), s, h)

/-! ## Helper lemmas -/

/-- `set_sock_state` — the only way a selector call can write into the
source — never changes the slot's occupancy, selector handle, token or
interests: every selector call built from it satisfies `StreamSelFrame`. -/
theorem TcpStream.set_sock_state_slotView (s : TcpStream) (h : Heap) (p : Option Nat) :
    (s.set_sock_state h p).1.slotView = s.slotView := by
  cases hs : s.internal <;>
    simp [TcpStream.set_sock_state, TcpStream.slotView, hs]

/-- Listener version of `TcpStream.set_sock_state_slotView`. -/
theorem TcpListener.listener_set_sock_state_slotView (l : TcpListener) (h : Heap) (p : Option Nat) :
    (l.set_sock_state h p).1.slotView = l.slotView := by
  cases hs : l.internal <;>
    simp [TcpListener.set_sock_state, TcpListener.slotView, hs]

/-- Unfolding an equal `slotView` into the slot's fields. -/
theorem TcpStream.slotView_eq_some {s : TcpStream} {st : InternalState}
    (hv : s.slotView = some (st.selector, st.token, st.interests)) :
    ∃ st2 : InternalState, s.internal = some st2 ∧ st2.selector = st.selector ∧
      st2.token = st.token ∧ st2.interests = st.interests := by
  cases hs : s.internal with
  | none => simp [TcpStream.slotView, hs] at hv
  | some st2 =>
    refine ⟨st2, rfl, ?_⟩
    simp [TcpStream.slotView, hs] at hv
    exact ⟨hv.1, hv.2.1, hv.2.2⟩

/-- Listener version of `TcpStream.slotView_eq_some`. -/
theorem TcpListener.listener_slotView_eq_some {l : TcpListener} {st : InternalState}
    (hv : l.slotView = some (st.selector, st.token, st.interests)) :
    ∃ st2 : InternalState, l.internal = some st2 ∧ st2.selector = st.selector ∧
      st2.token = st.token ∧ st2.interests = st.interests := by
  cases hs : l.internal with
  | none => simp [TcpListener.slotView, hs] at hv
  | some st2 =>
    refine ⟨st2, rfl, ?_⟩
    simp [TcpListener.slotView, hs] at hv
    exact ⟨hv.1, hv.2.1, hv.2.2⟩

/-- An empty slot seen through `slotView`. -/
theorem TcpStream.slotView_eq_none {s : TcpStream}
    (hv : s.slotView = none) : s.internal = none := by
  cases hs : s.internal with
  | none => rfl
  | some st2 => simp [TcpStream.slotView, hs] at hv

/-- `slotView` is occupied exactly when the slot is. -/
theorem TcpStream.slotView_isSome (s : TcpStream) :
    s.slotView.isSome = s.internal.isSome := by
  cases hs : s.internal <;> simp [TcpStream.slotView, hs]

/-- Listener version of `TcpStream.slotView_isSome`. -/
theorem TcpListener.listener_slotView_isSome (l : TcpListener) :
    l.slotView.isSome = l.internal.isSome := by
  cases hl : l.internal <;> simp [TcpListener.slotView, hl]

/-! ## Claim theorems -/

/-- C1: for every Windows `TcpStream` and `TcpListener`, the `InternalState`
slot is cleared when `Source::register`'s call into the Selector fails and
when `Source::deregister`'s call into the Selector succeeds, and the slot
remains occupied across a `Source::reregister` call (for any selector call
touching the source only through the `SocketState` capability); no
registration failure leaves a dangling `InternalState` behind. -/
theorem c1_internal_state_slot_lifecycle :
    (∀ (selRegister : StreamSelCall) (registrySel : Nat) (s : TcpStream) (h : Heap)
        (t : Token) (i : Interest) (e : IoError),
      (TcpStream.register selRegister registrySel s h t i).1 = Except.error e →
      (TcpStream.register selRegister registrySel s h t i).2.1.internal = none) ∧
    (∀ (selDeregister : StreamSelDereg) (s : TcpStream) (h : Heap),
      (TcpStream.deregister selDeregister s h).1 = Except.ok () →
      (TcpStream.deregister selDeregister s h).2.1.internal = none) ∧
    (∀ (selReregister : StreamSelCall), StreamSelFrame selReregister →
      ∀ (s : TcpStream) (h : Heap) (t : Token) (i : Interest),
      s.internal.isSome = true →
      ∃ out : IoUnit × TcpStream × Heap,
        TcpStream.reregister selReregister s h t i = some out ∧
        out.2.1.internal.isSome = true) ∧
    (∀ (selRegister : ListenerSelCall) (registrySel : Nat) (l : TcpListener) (h : Heap)
        (t : Token) (i : Interest) (e : IoError),
      (TcpListener.register selRegister registrySel l h t i).1 = Except.error e →
      (TcpListener.register selRegister registrySel l h t i).2.1.internal = none) ∧
    (∀ (selDeregister : ListenerSelDereg) (l : TcpListener) (h : Heap),
      (TcpListener.deregister selDeregister l h).1 = Except.ok () →
      (TcpListener.deregister selDeregister l h).2.1.internal = none) ∧
    (∀ (selReregister : ListenerSelCall), ListenerSelFrame selReregister →
      ∀ (l : TcpListener) (h : Heap) (t : Token) (i : Interest),
      l.internal.isSome = true →
      ∃ out : IoUnit × TcpListener × Heap,
        TcpListener.reregister selReregister l h t i = some out ∧
        out.2.1.internal.isSome = true) := by
  refine ⟨?_, ?_, ?_, ?_, ?_, ?_⟩
  · intro selRegister regSel s h t i e he
    cases hs : s.internal with
    | none =>
      simp only [TcpStream.register, hs] at he ⊢
      rcases hc : selRegister t i
          { s with internal := some (InternalState.new regSel t i) } h with ⟨r, s2, h2⟩
      rw [hc] at he
      cases r with
      | ok u => exact Except.noConfusion he
      | error e2 => rfl
    | some st =>
      simp only [TcpStream.register, hs] at he ⊢
      rcases hc : selRegister t i s h with ⟨r, s2, h2⟩
      rw [hc] at he
      cases r with
      | ok u => exact Except.noConfusion he
      | error e2 => rfl
  · intro selDeregister s h he
    simp only [TcpStream.deregister] at he ⊢
    rcases hc : selDeregister s h with ⟨r, s2, h2⟩
    rw [hc] at he
    cases r with
    | ok u => rfl
    | error e2 => exact Except.noConfusion he
  · intro selReregister hf s h t i hs
    rcases hc : selReregister t i s h with ⟨r, s2, h2⟩
    have hview : s2.slotView = s.slotView := by
      have hfr := hf t i s h
      rwa [hc] at hfr
    have hs2 : s2.internal.isSome = true := by
      rw [← TcpStream.slotView_isSome, hview, TcpStream.slotView_isSome]
      exact hs
    cases r with
    | ok u =>
      cases hs2i : s2.internal with
      | none => rw [hs2i] at hs2; simp at hs2
      | some st2 =>
        refine ⟨(Except.ok u,
          { s2 with internal := some { st2 with token := t, interests := i } }, h2), ?_, rfl⟩
        simp only [TcpStream.reregister]
        rw [hc]
        simp [hs2i]
    | error e =>
      refine ⟨(Except.error e, s2, h2), ?_, hs2⟩
      simp only [TcpStream.reregister]
      rw [hc]
  · intro selRegister regSel l h t i e he
    cases hl : l.internal with
    | none =>
      simp only [TcpListener.register, hl] at he ⊢
      rcases hc : selRegister t i
          { l with internal := some (InternalState.new regSel t i) } h with ⟨r, l2, h2⟩
      rw [hc] at he
      cases r with
      | ok u => exact Except.noConfusion he
      | error e2 => rfl
    | some st =>
      simp only [TcpListener.register, hl] at he ⊢
      rcases hc : selRegister t i l h with ⟨r, l2, h2⟩
      rw [hc] at he
      cases r with
      | ok u => exact Except.noConfusion he
      | error e2 => rfl
  · intro selDeregister l h he
    simp only [TcpListener.deregister] at he ⊢
    rcases hc : selDeregister l h with ⟨r, l2, h2⟩
    rw [hc] at he
    cases r with
    | ok u => rfl
    | error e2 => exact Except.noConfusion he
  · intro selReregister hf l h t i hl
    rcases hc : selReregister t i l h with ⟨r, l2, h2⟩
    have hview : l2.slotView = l.slotView := by
      have hfr := hf t i l h
      rwa [hc] at hfr
    have hl2 : l2.internal.isSome = true := by
      rw [← TcpListener.listener_slotView_isSome, hview, TcpListener.listener_slotView_isSome]
      exact hl
    cases r with
    | ok u =>
      cases hl2i : l2.internal with
      | none => rw [hl2i] at hl2; simp at hl2
      | some st2 =>
        refine ⟨(Except.ok u,
          { l2 with internal := some { st2 with token := t, interests := i } }, h2), ?_, rfl⟩
        simp only [TcpListener.reregister]
        rw [hc]
        simp [hl2i]
    | error e =>
      refine ⟨(Except.error e, l2, h2), ?_, hl2⟩
      simp only [TcpListener.reregister]
      rw [hc]

/-- Witness for C1: a failing register clears a fresh stream's slot, and a
frame-respecting successful reregister keeps a registered stream's slot
occupied. -/
theorem c1_witness :
    ((TcpStream.register selErrStream 3 sampleStreamNew sampleHeap
        { val := 1 } { bits := 1 }).2.1.internal = none) ∧
    ∃ out : IoUnit × TcpStream × Heap,
      TcpStream.reregister selOkStream sampleStreamReg sampleHeap
        { val := 2 } { bits := 2 } = some out ∧
      out.2.1.internal.isSome = true :=
  ⟨c1_internal_state_slot_lifecycle.1 selErrStream 3 sampleStreamNew sampleHeap
      { val := 1 } { bits := 1 } { kind := ErrorKind.other } rfl,
    c1_internal_state_slot_lifecycle.2.2.1 selOkStream (fun _ _ _ _ => rfl)
      sampleStreamReg sampleHeap { val := 2 } { bits := 2 } rfl⟩

/-- C2: for every Windows `TcpStream` (and `TcpListener`) and every call
`reregister(registry, T', I')`: the token and interests stored in the
source's `InternalState` are overwritten with `(T', I')` exactly when the
Selector's `reregister` call returns success, and are left unchanged when it
returns an error — the update happens only after the selector has accepted
the change. -/
theorem c2_reregister_updates_after_selector_accepts :
    (∀ (selReregister : StreamSelCall), StreamSelFrame selReregister →
      ∀ (s : TcpStream) (h : Heap) (st : InternalState) (t : Token) (i : Interest),
      s.internal = some st →
      ∃ out : IoUnit × TcpStream × Heap,
        TcpStream.reregister selReregister s h t i = some out ∧
        out.1 = (selReregister t i s h).1 ∧
        (∀ u : Unit, out.1 = Except.ok u →
          ∃ st2 : InternalState, out.2.1.internal = some st2 ∧
            st2.token = t ∧ st2.interests = i) ∧
        (∀ e : IoError, out.1 = Except.error e →
          ∃ st2 : InternalState, out.2.1.internal = some st2 ∧
            st2.token = st.token ∧ st2.interests = st.interests)) ∧
    (∀ (selReregister : ListenerSelCall), ListenerSelFrame selReregister →
      ∀ (l : TcpListener) (h : Heap) (st : InternalState) (t : Token) (i : Interest),
      l.internal = some st →
      ∃ out : IoUnit × TcpListener × Heap,
        TcpListener.reregister selReregister l h t i = some out ∧
        out.1 = (selReregister t i l h).1 ∧
        (∀ u : Unit, out.1 = Except.ok u →
          ∃ st2 : InternalState, out.2.1.internal = some st2 ∧
            st2.token = t ∧ st2.interests = i) ∧
        (∀ e : IoError, out.1 = Except.error e →
          ∃ st2 : InternalState, out.2.1.internal = some st2 ∧
            st2.token = st.token ∧ st2.interests = st.interests)) := by
  constructor
  · intro selReregister hf s h st t i hs
    rcases hc : selReregister t i s h with ⟨r, s2, h2⟩
    have hview : s2.slotView = s.slotView := by
      have hfr := hf t i s h
      rwa [hc] at hfr
    have hsv : s.slotView = some (st.selector, st.token, st.interests) := by
      simp [TcpStream.slotView, hs]
    obtain ⟨st2, hs2, hsel2, htok2, hint2⟩ :=
      TcpStream.slotView_eq_some (hview.trans hsv)
    cases r with
    | ok u =>
      refine ⟨(Except.ok u,
        { s2 with internal := some { st2 with token := t, interests := i } }, h2),
        ?_, ?_, ?_, ?_⟩
      · simp only [TcpStream.reregister]
        rw [hc]
        simp [hs2]
      · rfl
      · intro u2 _
        exact ⟨{ st2 with token := t, interests := i }, rfl, rfl, rfl⟩
      · intro e2 habs
        exact Except.noConfusion habs
    | error e =>
      refine ⟨(Except.error e, s2, h2), ?_, ?_, ?_, ?_⟩
      · simp only [TcpStream.reregister]
        rw [hc]
      · rfl
      · intro u habs
        exact Except.noConfusion habs
      · intro e2 _
        exact ⟨st2, hs2, htok2, hint2⟩
  · intro selReregister hf l h st t i hl
    rcases hc : selReregister t i l h with ⟨r, l2, h2⟩
    have hview : l2.slotView = l.slotView := by
      have hfr := hf t i l h
      rwa [hc] at hfr
    have hlv : l.slotView = some (st.selector, st.token, st.interests) := by
      simp [TcpListener.slotView, hl]
    obtain ⟨st2, hl2i, hsel2, htok2, hint2⟩ :=
      TcpListener.listener_slotView_eq_some (hview.trans hlv)
    cases r with
    | ok u =>
      refine ⟨(Except.ok u,
        { l2 with internal := some { st2 with token := t, interests := i } }, h2),
        ?_, ?_, ?_, ?_⟩
      · simp only [TcpListener.reregister]
        rw [hc]
        simp [hl2i]
      · rfl
      · intro u2 _
        exact ⟨{ st2 with token := t, interests := i }, rfl, rfl, rfl⟩
      · intro e2 habs
        exact Except.noConfusion habs
    | error e =>
      refine ⟨(Except.error e, l2, h2), ?_, ?_, ?_, ?_⟩
      · simp only [TcpListener.reregister]
        rw [hc]
      · rfl
      · intro u habs
        exact Except.noConfusion habs
      · intro e2 _
        exact ⟨st2, hl2i, htok2, hint2⟩

/-- Witness for C2: a registered stream under an accepting selector call gets
its stored token and interests overwritten, and under a failing one keeps
them. -/
theorem c2_witness :
    (∃ out : IoUnit × TcpStream × Heap,
      TcpStream.reregister selOkStream sampleStreamReg sampleHeap
        { val := 2 } { bits := 2 } = some out ∧
      out.1 = (selOkStream { val := 2 } { bits := 2 } sampleStreamReg sampleHeap).1 ∧
      (∀ u : Unit, out.1 = Except.ok u →
        ∃ st2 : InternalState, out.2.1.internal = some st2 ∧
          st2.token = { val := 2 } ∧ st2.interests = { bits := 2 }) ∧
      (∀ e : IoError, out.1 = Except.error e →
        ∃ st2 : InternalState, out.2.1.internal = some st2 ∧
          st2.token = sampleInternal.token ∧ st2.interests = sampleInternal.interests)) ∧
    ∃ out : IoUnit × TcpStream × Heap,
      TcpStream.reregister selErrStream sampleStreamReg sampleHeap
        { val := 2 } { bits := 2 } = some out ∧
      out.1 = (selErrStream { val := 2 } { bits := 2 } sampleStreamReg sampleHeap).1 ∧
      (∀ u : Unit, out.1 = Except.ok u →
        ∃ st2 : InternalState, out.2.1.internal = some st2 ∧
          st2.token = { val := 2 } ∧ st2.interests = { bits := 2 }) ∧
      (∀ e : IoError, out.1 = Except.error e →
        ∃ st2 : InternalState, out.2.1.internal = some st2 ∧
          st2.token = sampleInternal.token ∧ st2.interests = sampleInternal.interests) :=
  ⟨c2_reregister_updates_after_selector_accepts.1 selOkStream (fun _ _ _ _ => rfl)
      sampleStreamReg sampleHeap sampleInternal { val := 2 } { bits := 2 } rfl,
    c2_reregister_updates_after_selector_accepts.1 selErrStream (fun _ _ _ _ => rfl)
      sampleStreamReg sampleHeap sampleInternal { val := 2 } { bits := 2 } rfl⟩

/-- Modelled from the spec: the behaviour of the Windows `Selector`'s own
`reregister` on a never-registered source (its implementation file is not
among the provided sources).  Spec §7 error table: "InvalidInput —
reregister of a never-registered source"; the selector reaches the source
only through `get_sock_state`, which yields `None` when the slot is empty. -/
def StreamSelRejectsUnregistered (f : StreamSelCall) : Prop :=
  ∀ (t : Token) (i : Interest) (s : TcpStream) (h : Heap),
    s.get_sock_state = none →
    (f t i s h).1 = Except.error { kind := ErrorKind.invalidInput }

/-- C3: calling `reregister` on a Windows `TcpStream` that has never been
registered (its `InternalState` slot is `None`) is reported as an error and
does not corrupt internal state (the slot stays `None`); in particular the
branch that unwraps the slot after a successful selector `reregister` is
unreachable, so there is no panic (the embedded result is `some _`, never the
`none` that encodes the panic of `unwrap`). -/
theorem c3_reregister_unregistered_reports_error :
    ∀ (selReregister : StreamSelCall), StreamSelFrame selReregister →
      StreamSelRejectsUnregistered selReregister →
      ∀ (s : TcpStream) (h : Heap) (t : Token) (i : Interest),
      s.internal = none →
      ∃ out : IoUnit × TcpStream × Heap,
        TcpStream.reregister selReregister s h t i = some out ∧
        out.1 = Except.error { kind := ErrorKind.invalidInput } ∧
        out.2.1.internal = none := by
  intro selReregister hf hrej s h t i hs
  have hg : s.get_sock_state = none := by
    simp [TcpStream.get_sock_state, hs]
  rcases hc : selReregister t i s h with ⟨r, s2, h2⟩
  have hr : r = Except.error { kind := ErrorKind.invalidInput } := by
    have hthis := hrej t i s h hg
    rw [hc] at hthis
    exact hthis
  subst hr
  have hview : s2.slotView = s.slotView := by
    have hfr := hf t i s h
    rwa [hc] at hfr
  have hs2 : s2.internal = none := by
    refine TcpStream.slotView_eq_none ?_
    rw [hview]
    simp [TcpStream.slotView, hs]
  refine ⟨(Except.error { kind := ErrorKind.invalidInput }, s2, h2), ?_, rfl, hs2⟩
  simp only [TcpStream.reregister]
  rw [hc]

/-- Witness for C3: the spec-conforming selector `selStrictStream` satisfies
both hypotheses, and reregistering a never-registered stream through it
yields an `InvalidInput` error, no panic, slot still empty. -/
theorem c3_witness :
    ∃ out : IoUnit × TcpStream × Heap,
      TcpStream.reregister selStrictStream sampleStreamNew sampleHeap
        { val := 2 } { bits := 2 } = some out ∧
      out.1 = Except.error { kind := ErrorKind.invalidInput } ∧
      out.2.1.internal = none :=
  c3_reregister_unregistered_reports_error selStrictStream
    (by
      intro t i s h
      simp only [selStrictStream]
      cases s.get_sock_state <;> rfl)
    (by
      intro t i s h hg
      simp [selStrictStream, hg])
    sampleStreamNew sampleHeap { val := 2 } { bits := 2 } rfl

/-- C4: for every Windows `TcpStream` and `TcpListener` whose `InternalState`
slot currently holds a `SockState` pointer, `set_sock_state(None)` invokes
`mark_delete()` on that cell — installing the tombstone the selector's next
drain observes — and replaces the slot's pointer with `None`. -/
theorem c4_set_sock_state_none_marks_delete :
    (∀ (s : TcpStream) (h : Heap) (st : InternalState) (q : Nat),
      s.internal = some st → st.sock_state = some q →
      (s.set_sock_state h none).2 q = (h q).mark_delete ∧
      ((s.set_sock_state h none).2 q).delete_pending = true ∧
      (s.set_sock_state h none).1.internal = some { st with sock_state := none }) ∧
    (∀ (l : TcpListener) (h : Heap) (st : InternalState) (q : Nat),
      l.internal = some st → st.sock_state = some q →
      (l.set_sock_state h none).2 q = (h q).mark_delete ∧
      ((l.set_sock_state h none).2 q).delete_pending = true ∧
      (l.set_sock_state h none).1.internal = some { st with sock_state := none }) := by
  constructor
  · intro s h st q hs hq
    simp [TcpStream.set_sock_state, hs, hq, Heap.update, SockState.mark_delete]
  · intro l h st q hl hq
    simp [TcpListener.set_sock_state, hl, hq, Heap.update, SockState.mark_delete]

/-- Witness for C4 at a concrete registered stream whose slot points at
cell 0. -/
theorem c4_witness :
    (sampleStreamReg.set_sock_state sampleHeap none).2 0 = (sampleHeap 0).mark_delete ∧
    ((sampleStreamReg.set_sock_state sampleHeap none).2 0).delete_pending = true ∧
    (sampleStreamReg.set_sock_state sampleHeap none).1.internal =
      some { sampleInternal with sock_state := none } :=
  c4_set_sock_state_none_marks_delete.1 sampleStreamReg sampleHeap sampleInternal 0 rfl rfl

/-- C5: on Windows, `io_blocked_reregister` re-invokes the registration path:
when the `InternalState` slot holds `(selector, token, interests)` it calls
that selector's `reregister` with exactly the stored token and interests and
returns its result; when the slot is empty it returns `Ok(())` without
calling the selector (the result does not depend on the selector at all). -/
theorem c5_io_blocked_reregister_uses_stored_registration :
    (∀ (selRereg : Nat → Token → Interest → TcpStream → Heap → IoUnit × TcpStream × Heap)
        (s : TcpStream) (h : Heap) (st : InternalState),
      s.internal = some st →
      TcpStream.io_blocked_reregister selRereg s h =
        selRereg st.selector st.token st.interests s h) ∧
    (∀ (selRereg : Nat → Token → Interest → TcpStream → Heap → IoUnit × TcpStream × Heap)
        (s : TcpStream) (h : Heap),
      s.internal = none →
      TcpStream.io_blocked_reregister selRereg s h = (Except.ok (), s, h)) ∧
    (∀ (selRereg : Nat → Token → Interest → TcpListener → Heap → IoUnit × TcpListener × Heap)
        (l : TcpListener) (h : Heap) (st : InternalState),
      l.internal = some st →
      TcpListener.io_blocked_reregister selRereg l h =
        selRereg st.selector st.token st.interests l h) ∧
    (∀ (selRereg : Nat → Token → Interest → TcpListener → Heap → IoUnit × TcpListener × Heap)
        (l : TcpListener) (h : Heap),
      l.internal = none →
      TcpListener.io_blocked_reregister selRereg l h = (Except.ok (), l, h)) := by
  refine ⟨?_, ?_, ?_, ?_⟩
  · intro selRereg s h st hs
    simp [TcpStream.io_blocked_reregister, hs]
  · intro selRereg s h hs
    simp [TcpStream.io_blocked_reregister, hs]
  · intro selRereg l h st hl
    simp [TcpListener.io_blocked_reregister, hl]
  · intro selRereg l h hl
    simp [TcpListener.io_blocked_reregister, hl]

/-- A stream reregister call (keyed by a selector handle) that accepts and
touches nothing; used by the C5 witness. -/
def selReregOkStream : Nat → Token → Interest → TcpStream → Heap → IoUnit × TcpStream × Heap :=
  fun _ _ _ s h => (Except.ok (), s, h)

/-- Witness for C5: a registered stream forwards the stored registration to
the selector; an unregistered one returns `Ok(())`. -/
theorem c5_witness :
    (TcpStream.io_blocked_reregister selReregOkStream sampleStreamReg sampleHeap =
      selReregOkStream sampleInternal.selector sampleInternal.token sampleInternal.interests
        sampleStreamReg sampleHeap) ∧
    TcpStream.io_blocked_reregister selReregOkStream sampleStreamNew sampleHeap =
      (Except.ok (), sampleStreamNew, sampleHeap) :=
  ⟨c5_io_blocked_reregister_uses_stored_registration.1 selReregOkStream sampleStreamReg
      sampleHeap sampleInternal rfl,
    c5_io_blocked_reregister_uses_stored_registration.2.1 selReregOkStream sampleStreamNew
      sampleHeap rfl⟩

/-- C8: for every Windows `TcpStream` and `TcpListener`, when the underlying
OS clone succeeds, `try_clone` returns a source whose `InternalState` slot
contains `None` — even when the original is currently registered (no
hypothesis on the original's slot). -/
theorem c8_try_clone_fresh_internal_state :
    (∀ (osClone : NetTcpStream → IoResult NetTcpStream) (s : TcpStream) (c : NetTcpStream),
      osClone s.inner = Except.ok c →
      TcpStream.try_clone osClone s = Except.ok { internal := none, inner := c }) ∧
    (∀ (osClone : NetTcpListener → IoResult NetTcpListener) (l : TcpListener)
        (c : NetTcpListener),
      osClone l.inner = Except.ok c →
      TcpListener.try_clone osClone l = Except.ok { internal := none, inner := c }) := by
  constructor
  · intro osClone s c hc
    simp [TcpStream.try_clone, hc, Except.map]
  · intro osClone l c hc
    simp [TcpListener.try_clone, hc, Except.map]

/-- An OS-level clone that succeeds, yielding a fresh handle; used by the C8
witness. -/
def osCloneOk : NetTcpStream → IoResult NetTcpStream :=
  fun s => Except.ok { s with handle := s.handle + 1 }

/-- Witness for C8 at a stream that is currently registered: the clone's slot
is nonetheless empty. -/
theorem c8_witness :
    TcpStream.try_clone osCloneOk sampleStreamReg =
      Except.ok { internal := none, inner := { sampleNet with handle := sampleNet.handle + 1 } } :=
  c8_try_clone_fresh_internal_state.1 osCloneOk sampleStreamReg
    { sampleNet with handle := sampleNet.handle + 1 } rfl

/-- C9: for every Windows `TcpStream` and `TcpListener` whose `InternalState`
slot is `None`, `set_sock_state` with any argument leaves the source and the
heap completely unchanged (the supplied pointer is silently discarded, no
`InternalState` is installed, no cell is marked), and `get_sock_state`
returns `None`. -/
theorem c9_sock_state_noop_when_unregistered :
    (∀ (s : TcpStream) (h : Heap) (p : Option Nat),
      s.internal = none →
      s.set_sock_state h p = (s, h) ∧ s.get_sock_state = none) ∧
    (∀ (l : TcpListener) (h : Heap) (p : Option Nat),
      l.internal = none →
      l.set_sock_state h p = (l, h) ∧ l.get_sock_state = none) := by
  constructor
  · intro s h p hs
    exact ⟨by simp [TcpStream.set_sock_state, hs], by simp [TcpStream.get_sock_state, hs]⟩
  · intro l h p hl
    exact ⟨by simp [TcpListener.set_sock_state, hl], by simp [TcpListener.get_sock_state, hl]⟩

/-- Witness for C9 at a never-registered stream and a concrete pointer. -/
theorem c9_witness :
    sampleStreamNew.set_sock_state sampleHeap (some 5) = (sampleStreamNew, sampleHeap) ∧
    sampleStreamNew.get_sock_state = none :=
  c9_sock_state_noop_when_unregistered.1 sampleStreamNew sampleHeap (some 5) rfl

/-- C6: the public `Event` is a transparent view over the platform
`sys::Event`: every accessor (`token`, `is_readable`, `is_writable`,
`is_error`, `is_read_closed`, `is_write_closed`, `is_priority`, `is_aio`,
`is_lio`) returns exactly the corresponding `sys::event` function applied to
the wrapped platform record, and `from_sys_event_ref` yields the view whose
wrapped record is the argument itself — it is inverse to projecting `inner`,
so no copy of the record is observable. -/
theorem c6_event_transparent_view :
    (∀ e : Event,
      e.token = sysEvent.token e.inner ∧
      e.is_readable = sysEvent.is_readable e.inner ∧
      e.is_writable = sysEvent.is_writable e.inner ∧
      e.is_error = sysEvent.is_error e.inner ∧
      e.is_read_closed = sysEvent.is_read_closed e.inner ∧
      e.is_write_closed = sysEvent.is_write_closed e.inner ∧
      e.is_priority = sysEvent.is_priority e.inner ∧
      e.is_aio = sysEvent.is_aio e.inner ∧
      e.is_lio = sysEvent.is_lio e.inner) ∧
    (∀ se : SysEvent, (Event.from_sys_event_ref se).inner = se) ∧
    (∀ e : Event, Event.from_sys_event_ref e.inner = e) :=
  ⟨fun _ => ⟨rfl, rfl, rfl, rfl, rfl, rfl, rfl, rfl, rfl⟩,
    fun _ => rfl, fun _ => rfl⟩

/-- C7: on Unix, `IoSourceState` is a zero-sized value carrying no state (it
has exactly one value), and for every operation `f` and every inner source,
`do_io(f)` returns exactly `f` applied to the inner source — the result is
`f`'s result, the inner source is what `f` left behind, and nothing else is
read or updated before or after. -/
theorem c7_unix_do_io_invokes_operation_directly :
    (∀ a b : IoSourceState, a = b) ∧
    (∀ (T R : Type) (st : IoSourceState) (f : T → IoResult R × T) (io : T),
      IoSourceState.do_io st f io = f io) ∧
    (∀ (T R : Type) (s : IoSource T) (f : T → IoResult R × T),
      IoSource.do_io s f = ((f s.inner).1, { state := s.state, inner := (f s.inner).2 })) := by
  refine ⟨?_, ?_, ?_⟩
  · intro a b
    cases a
    cases b
    rfl
  · intro T R st f io
    rfl
  · intro T R s f
    rfl

/-- C10: the Unix sys-level `TcpListener::accept` returns exactly the stream
and address produced by the underlying std listener's accept — in particular
it does not enable non-blocking mode on the accepted stream — whereas the
Windows `TcpListener::accept` sets the accepted stream to non-blocking
before returning it, wrapped in a `TcpStream` with an empty `InternalState`
slot. -/
theorem c10_accept_nonblocking_platform_difference :
    (∀ (osAccept : NetTcpListener → IoResult (NetTcpStream × SockAddr))
        (l : UnixTcpListener),
      UnixTcpListener.accept osAccept l = osAccept l.inner) ∧
    (∀ (osAccept : NetTcpListener → IoResult (NetTcpStream × SockAddr))
        (l : UnixTcpListener) (st : NetTcpStream) (a : SockAddr),
      osAccept l.inner = Except.ok (st, a) →
      UnixTcpListener.accept osAccept l = Except.ok (st, a)) ∧
    (∀ (selRereg : Nat → Token → Interest → TcpListener → Heap → IoUnit × TcpListener × Heap)
        (osAccept : NetTcpListener → IoResult (NetTcpStream × SockAddr))
        (l : TcpListener) (h : Heap) (st : NetTcpStream) (a : SockAddr),
      osAccept l.inner = Except.ok (st, a) →
      TcpListener.accept selRereg osAccept true l h =
        (Except.ok ({ internal := none, inner := { st with nonblocking := true } }, a),
          l, h)) := by
  refine ⟨?_, ?_, ?_⟩
  · intro osAccept l
    rfl
  · intro osAccept l st a hacc
    rw [UnixTcpListener.accept, hacc]
  · intro selRereg osAccept l h st a hacc
    simp [TcpListener.accept, TcpListener.try_io_accept, hacc,
      NetTcpStream.set_nonblocking]

/-- A listener reregister call (keyed by a selector handle) that accepts and
touches nothing; used by the C10 witness. -/
def selReregOkListener : Nat → Token → Interest → TcpListener → Heap → IoUnit × TcpListener × Heap :=
  fun _ _ _ l h => (Except.ok (), l, h)

/-- An OS-level accept that succeeds with a blocking stream on a fresh
handle; used by the C10 witness. -/
def osAcceptOk : NetTcpListener → IoResult (NetTcpStream × SockAddr) :=
  fun nl => Except.ok ({ handle := nl.handle + 1, nonblocking := false }, 4)

/-- Witness for C10: Unix hands back the blocking stream as produced; Windows
hands back the same stream with non-blocking set and an empty slot. -/
theorem c10_witness :
    (UnixTcpListener.accept osAcceptOk { inner := sampleNetL } =
      Except.ok ({ handle := sampleNetL.handle + 1, nonblocking := false }, 4)) ∧
    TcpListener.accept selReregOkListener osAcceptOk true sampleListenerReg sampleHeap =
      (Except.ok
          ({ internal := none,
             inner := { handle := sampleNetL.handle + 1, nonblocking := true } }, 4),
        sampleListenerReg, sampleHeap) :=
  ⟨c10_accept_nonblocking_platform_difference.2.1 osAcceptOk { inner := sampleNetL }
      { handle := sampleNetL.handle + 1, nonblocking := false } 4 rfl,
    c10_accept_nonblocking_platform_difference.2.2 selReregOkListener osAcceptOk
      sampleListenerReg sampleHeap
      { handle := sampleNetL.handle + 1, nonblocking := false } 4 rfl⟩

end Mio
